import Mathlib

/-!
Verification of the HiFive backend aggregation service.

This file gives a shallow embedding, in Lean 4, of the pure core of the
backend: the rarity classifier of `app.py::get_lootbox`, the author
extractor `app.py::extract_authors_from_works`, the topic aggregation of
`openalex_api.py::get_trending_topics`, the researcher-search parameter
builder of `openalex_api.py::search_researchers`, the filter-string builder
of `callopenalex.py::OpenAlexAPI.search_works`, the fallback researcher
filtering of `app.py::get_researchers`, and the per-endpoint
fallback-on-failure control flow.  Python dicts are modelled by
insertion-ordered association lists (CPython dicts preserve insertion
order), Python's stable `sorted` by a stable insertion sort, and upstream
calls by explicit `Except` / `Option` inputs.
-/

namespace HiFive

/-! ## Data model (shapes of the OpenAlex JSON records) -/

/-- An OpenAlex author object: `{"id": ..., "display_name": ...}`.
Either key may be absent. -/
structure Author where
  id : Option String
  display_name : Option String
deriving DecidableEq

/-- An institution object: only its display name is consumed. -/
structure Institution where
  display_name : Option String
deriving DecidableEq

/-- An authorship record: optional author object plus institution list. -/
structure Authorship where
  author : Option Author
  institutions : List Institution
deriving DecidableEq

/-- A concept tag: display name plus generality level (0 = most general).
Both keys may be absent; the code reads them with `.get(..., default)`. -/
structure ConceptTag where
  display_name : Option String
  level : Option Nat
deriving DecidableEq

/-- A work record, restricted to the fields the core logic reads. -/
structure Work where
  id : Option String
  title : Option String
  publication_year : Option Int
  cited_by_count : Option Nat
  authorships : List Authorship
  concepts : List ConceptTag
  abstract_inverted_index : Option String
deriving DecidableEq

/-- A works-API response page.  `results = none` models a malformed
response in which the `"results"` key is missing. -/
structure WorksResponse where
  results : Option (List Work)
deriving DecidableEq

/-! ## Rarity classifier (app.py, get_lootbox, lines 431–445) -/

/-- The rarity classification of `get_lootbox`:
```
if citations >= 5000:   rarity, label = "SSR", "Legendary"
elif citations >= 1000: rarity, label = "SR", "Epic"
elif citations >= 200:  rarity, label = "R", "Rare"
else:                   rarity, label = "N", "Common"
``` -/
def classify (citations : Nat) : String × String :=
  if citations ≥ 5000 then ("SSR", "Legendary")
  else if citations ≥ 1000 then ("SR", "Epic")
  else if citations ≥ 200 then ("R", "Rare")
  else ("N", "Common")

/-! ## Topic aggregation (openalex_api.py, get_trending_topics, lines 34–51) -/

/-- One step of the counting dict update
`topic_counts[name] = topic_counts.get(name, 0) + 1`, on an
insertion-ordered association list (CPython dicts preserve insertion
order; updating an existing key keeps its position). -/
def bump (name : String) : List (String × Nat) → List (String × Nat)
  | [] => [(name, 1)]
  | (n, c) :: rest => if n = name then (n, c + 1) :: rest else (n, c) :: bump name rest

/-- Whether a concept tag is counted:
`name = concept.get("display_name", "")`, counted when
`name and concept.get("level", 0) >= 2`. -/
def tagCounted (c : ConceptTag) : Bool :=
  (c.display_name.getD "" ≠ "") && (2 ≤ c.level.getD 0)

/-- The counting loop of `get_trending_topics`: walk every work in page
order and every concept in listed order, bumping the count of each
counted tag's display name. -/
def topicCounts (works : List Work) : List (String × Nat) :=
  works.foldl
    (fun m w =>
      w.concepts.foldl
        (fun m c => if tagCounted c then bump (c.display_name.getD "") m else m) m)
    []

/-- Stable descending insertion (by count): the new element is placed
before the first existing element whose count is ≤ its own, so elements
inserted later never overtake earlier ones of equal count.  Models the
stability of Python's `sorted(..., key=lambda x: x[1], reverse=True)`. -/
def insertDesc (x : String × Nat) : List (String × Nat) → List (String × Nat)
  | [] => [x]
  | y :: ys => if x.2 < y.2 then y :: insertDesc x ys else x :: y :: ys

/-- Stable sort by count descending (insertion sort; extensionally equal
to any stable sort under the same key, hence to Python's `sorted` with
`reverse=True`). -/
def sortDesc (l : List (String × Nat)) : List (String × Nat) :=
  l.foldr insertDesc []

/-- The pure aggregation core of `get_trending_topics`: count the tags of
`data.get("results", [])`, sort by frequency descending (stably), and keep
the first 30 (`sorted(...)[:30]`). -/
def get_trending_topics_core (resp : WorksResponse) : List (String × Nat) :=
  (sortDesc (topicCounts (resp.results.getD []))).take 30

/-- Wordcloud mode: `[{"text": topic, "value": count} for ...]`,
modelled as the pair list itself. -/
def get_trending_topics_wordcloud (resp : WorksResponse) : List (String × Nat) :=
  get_trending_topics_core resp

/-- Counts mode: parallel `topics` / `counts` arrays in the sorted order. -/
def get_trending_topics_counts (resp : WorksResponse) : List String × List Nat :=
  ((get_trending_topics_core resp).map Prod.fst,
   (get_trending_topics_core resp).map Prod.snd)

/-- A work with all tags that the counting loop would skip removed:
used to state that level-< 2 (and nameless) tags never contribute. -/
def pruneWork (w : Work) : Work :=
  { w with concepts := w.concepts.filter tagCounted }

/-! ## Author extractor (app.py, extract_authors_from_works, lines 122–169) -/

/-- One entry of the extractor's output dict. -/
structure ResearcherEntry where
  name : String
  link : String
  affiliation : String
  field : String
  works_count : Option Nat
  cited_by_count : Option Nat
deriving DecidableEq

/-- The candidate an authorship yields before deduplication:
`none` when the authorship is skipped because it has no author object
(`if not author: continue`) or its author has no id / an empty id
(`if not author_id: continue` — Python truthiness rejects both `None`
and `""`).  Otherwise the key/value pair the dict would receive. -/
def candidateOf (a : Authorship) : Option (String × ResearcherEntry) :=
  match a.author with
  | none => none
  | some author =>
    match author.id with
    | none => none
    | some aid =>
      if aid = "" then none
      else
        let affiliation :=
          match a.institutions with
          | [] => "N/A"
          | inst :: _ => inst.display_name.getD "N/A"
        some (aid,
          { name := author.display_name.getD "Unknown"
            link := aid
            affiliation := affiliation
            field := "AI Research"
            works_count := none
            cited_by_count := none })

/-- One authorship step: the candidate is dropped as well when its author
id is already a key of the dict (`if ... author_id in authors_dict:
continue`). -/
def authorshipEntry (ids : List String) (a : Authorship) :
    Option (String × ResearcherEntry) :=
  match candidateOf a with
  | none => none
  | some (i, e) => if ids.contains i then none else some (i, e)

/-- The inner `for authorship in authorships` loop.  After an entry is
added the loop breaks as soon as the dict has reached `max_authors`
(`if len(authors_dict) >= max_authors: break`); skipped authorships
`continue` past that check. -/
def processAuthorships (k : Nat) (acc : List (String × ResearcherEntry)) :
    List Authorship → List (String × ResearcherEntry)
  | [] => acc
  | a :: rest =>
    match authorshipEntry (acc.map Prod.fst) a with
    | none => processAuthorships k acc rest
    | some e =>
      let acc2 := acc ++ [e]
      if k ≤ acc2.length then acc2 else processAuthorships k acc2 rest

/-- The outer `for work in works_response["results"]` loop, with its own
break once `max_authors` unique authors are collected. -/
def processWorks (k : Nat) (acc : List (String × ResearcherEntry)) :
    List Work → List (String × ResearcherEntry)
  | [] => acc
  | w :: rest =>
    let acc2 := processAuthorships k acc w.authorships
    if k ≤ acc2.length then acc2 else processWorks k acc2 rest

/-- `extract_authors_from_works(works_response, max_authors)`: returns
`[]` when the `"results"` key is missing, otherwise
`list(authors_dict.values())[:max_authors]`. -/
def extract_authors_from_works (resp : WorksResponse) (max_authors : Nat := 3) :
    List ResearcherEntry :=
  match resp.results with
  | none => []
  | some works => ((processWorks max_authors [] works).map Prod.snd).take max_authors

/-- Straightforward first-seen deduplication of a candidate stream, with
no early stopping: the reference description of "first-encountered order,
one entry per author id" from the spec.  `extract_authors_from_works` is
proved to agree with `take max_authors` of this. -/
def firstSeenDedup (acc : List (String × ResearcherEntry)) :
    List (String × ResearcherEntry) → List (String × ResearcherEntry)
  | [] => acc
  | (i, e) :: rest =>
    if (acc.map Prod.fst).contains i then firstSeenDedup acc rest
    else firstSeenDedup (acc ++ [(i, e)]) rest

/-- The full candidate stream of a page: works in page order, authorships
in listed order, skipping authorships with no author / no usable id. -/
def candidates (works : List Work) : List (String × ResearcherEntry) :=
  works.flatMap (fun w => w.authorships.filterMap candidateOf)

/-! ## Fallback researcher filtering (app.py, get_researchers, lines 97–110) -/

/-- One mock researcher record (mock_data.py, get_mock_researchers). -/
structure MockResearcher where
  name : String
  affiliation : String
  country : String
  link : String
  topics : List String
  citations : Nat
  works_count : Nat
deriving DecidableEq

/-- `needle.lower() in hay.lower()` on character lists: contiguous
substring occurrence, Python's `in` on strings. -/
def charsStartWith : List Char → List Char → Bool
  | [], _ => true
  | _ :: _, [] => false
  | a :: as, b :: bs => a == b && charsStartWith as bs

/-- Substring occurrence: `needle` occurs contiguously in `hay`. -/
def charsOccur (needle : List Char) : List Char → Bool
  | [] => needle.isEmpty
  | c :: rest => charsStartWith needle (c :: rest) || charsOccur needle rest

/-- Case-insensitive substring test `needle.lower() in hay.lower()`. -/
def containsCI (needle hay : String) : Bool :=
  charsOccur needle.toLower.toList hay.toLower.toList

/-- `[r for r in filtered if any(topic.lower() in t.lower() for t in r.get("topics", []))]` -/
def filterByTopic (topic : String) (l : List MockResearcher) : List MockResearcher :=
  l.filter (fun r => r.topics.any (fun t => containsCI topic t))

/-- `[r for r in filtered if institution.lower() in r.get("affiliation", "").lower()]` -/
def filterByInstitution (institution : String) (l : List MockResearcher) :
    List MockResearcher :=
  l.filter (fun r => containsCI institution r.affiliation)

/-- `[r for r in filtered if country.lower() in r.get("country", "").lower()]` -/
def filterByCountry (country : String) (l : List MockResearcher) :
    List MockResearcher :=
  l.filter (fun r => containsCI country r.country)

/-- Python truthiness of an optional string: `if topic:` is false for
both `None` and the empty string. -/
def truthyStr : Option String → Bool
  | none => false
  | some s => s ≠ ""

/-- The whole fallback filter of `get_researchers`: apply the three
filters in sequence, each only when its argument is truthy. -/
def applyFallbackFilters (topic institution country : Option String)
    (l : List MockResearcher) : List MockResearcher :=
  let l1 := match topic with
    | some t => if t = "" then l else filterByTopic t l
    | none => l
  let l2 := match institution with
    | some i => if i = "" then l1 else filterByInstitution i l1
    | none => l1
  match country with
  | some c => if c = "" then l2 else filterByCountry c l2
  | none => l2

/-! ## Live researcher search parameters (openalex_api.py, search_researchers, lines 56–84) -/

/-- The query parameters `search_researchers` sends to `/authors`
(`mailto` is a constant and omitted). -/
structure AuthorSearchParams where
  filter : String
  per_page : Nat
  sort : String
deriving DecidableEq

/-- The filter list built by `search_researchers`: a truthy `topic`
contributes the fixed entry `concepts.id:C154945302` (the topic text is
not used), a truthy `institution` a display-name search entry, a truthy
`country` an upper-cased country-code entry. -/
def researcherFilters (topic institution country : Option String) : List String :=
  (if truthyStr topic then ["concepts.id:C154945302"] else [])
  ++ (match institution with
      | some i => if i = "" then [] else ["last_known_institution.display_name.search:" ++ i]
      | none => [])
  ++ (match country with
      | some c => if c = "" then [] else ["last_known_institution.country_code:" ++ c.toUpper]
      | none => [])

/-- The params dict of `search_researchers`:
`",".join(filters) if filters else "concepts.id:C154945302"`,
`per_page = limit`, `sort = "cited_by_count:desc"`. -/
def researcherParams (topic institution country : Option String) (limit : Nat) :
    AuthorSearchParams :=
  let fs := researcherFilters topic institution country
  { filter := if fs.isEmpty then "concepts.id:C154945302" else String.intercalate "," fs
    per_page := limit
    sort := "cited_by_count:desc" }

/-! ## Works search filter building (callopenalex.py, OpenAlexAPI.search_works, lines 128–191) -/

/-- A Python value appearing in `filter_params` / `kwargs` / the
`cited_by_count` shortcut: bool, int, or string. -/
inductive PyVal where
  | bool (b : Bool)
  | int (n : Int)
  | str (s : String)
deriving DecidableEq

/-- `str(value)` for the values above (`str(True) = "True"`). -/
def PyVal.pyStr : PyVal → String
  | .bool b => if b then "True" else "False"
  | .int n => toString n
  | .str s => s

/-- Serialization of one `filter_params` / `kwargs` entry:
booleans are lower-cased (`str(value).lower()`), everything else is
`f"{key}:{value}"`. -/
def serializeFilter (kv : String × PyVal) : String :=
  match kv.2 with
  | .bool b => kv.1 ++ ":" ++ (if b then "true" else "false")
  | v => kv.1 ++ ":" ++ v.pyStr

/-- The `publication_year` shortcut's three accepted shapes. -/
inductive PubYear where
  | year (y : Int)
  | range (s : String)
  | years (ys : List Int)
deriving DecidableEq

/-- Its serialization: a list is joined by `"|"`
(`'|'.join(map(str, publication_year))`). -/
def PubYear.serialize : PubYear → String
  | .year y => "publication_year:" ++ toString y
  | .range s => "publication_year:" ++ s
  | .years ys => "publication_year:" ++ String.intercalate "|" (ys.map toString)

/-- `if x is not None: filters.append(f(x))` — the appended fragment. -/
def optEntry {α : Type} (o : Option α) (f : α → String) : List String :=
  match o with
  | some x => [f x]
  | none => []

/-- The filter list built by `search_works`, appended in source order:
explicit `filter_params` entries first, then each supplied shortcut, then
`kwargs` entries.  Nothing is keyed or overwritten — colliding keys all
stay in the list. -/
def buildWorksFilters (filter_params : List (String × PyVal))
    (publication_year : Option PubYear) (publication_date : Option String)
    (cited_by_count : Option PyVal) (is_oa : Option Bool)
    (type_ : Option String) (institutions_id authors_id concepts_id : Option String)
    (kwargs : List (String × PyVal)) : List String :=
  let filters : List String := []
  let filters := filters ++ filter_params.map serializeFilter
  let filters := filters ++ optEntry publication_year PubYear.serialize
  let filters := filters ++ optEntry publication_date (fun d => "publication_date:" ++ d)
  let filters := filters ++ optEntry cited_by_count (fun v => "cited_by_count:" ++ v.pyStr)
  let filters := filters ++ optEntry is_oa (fun b => "is_oa:" ++ (if b then "true" else "false"))
  let filters := filters ++ optEntry type_ (fun t => "type:" ++ t)
  let filters := filters ++ optEntry institutions_id (fun i => "institutions.id:" ++ i)
  let filters := filters ++ optEntry authors_id (fun a => "authorships.author.id:" ++ a)
  let filters := filters ++ optEntry concepts_id (fun c => "concepts.id:" ++ c)
  filters ++ kwargs.map serializeFilter

/-- The combined `filter` query parameter:
`params['filter'] = ','.join(filters)` when the list is nonempty,
otherwise no `filter` key. -/
def combinedWorksFilter (filter_params : List (String × PyVal))
    (publication_year : Option PubYear) (publication_date : Option String)
    (cited_by_count : Option PyVal) (is_oa : Option Bool)
    (type_ : Option String) (institutions_id authors_id concepts_id : Option String)
    (kwargs : List (String × PyVal)) : Option String :=
  let fs := buildWorksFilters filter_params publication_year publication_date
    cited_by_count is_oa type_ institutions_id authors_id concepts_id kwargs
  if fs.isEmpty then none else some (String.intercalate "," fs)

/-- Number of supplied convenience shortcuts. -/
def shortcutCount (publication_year : Option PubYear) (publication_date : Option String)
    (cited_by_count : Option PyVal) (is_oa : Option Bool)
    (type_ : Option String) (institutions_id authors_id concepts_id : Option String) : Nat :=
  (if publication_year.isSome then 1 else 0)
  + (if publication_date.isSome then 1 else 0)
  + (if cited_by_count.isSome then 1 else 0)
  + (if is_oa.isSome then 1 else 0)
  + (if type_.isSome then 1 else 0)
  + (if institutions_id.isSome then 1 else 0)
  + (if authors_id.isSome then 1 else 0)
  + (if concepts_id.isSome then 1 else 0)

/-! ## Static mock data (mock_data.py; lootbox fallback capsules in app.py) -/

/-- `get_mock_wordcloud()` as (text, value) pairs. -/
def get_mock_wordcloud : List (String × Nat) :=
  [("Large Language Models", 150), ("Multimodal Learning", 130), ("AI Safety", 120),
   ("Reinforcement Learning", 110), ("Computer Vision", 105),
   ("Natural Language Processing", 100), ("Diffusion Models", 95),
   ("Transformer Architecture", 90), ("Few-Shot Learning", 85), ("Neural Networks", 80),
   ("Deep Learning", 78), ("Generative AI", 75), ("AI Alignment", 70),
   ("Machine Learning", 68), ("Vision-Language Models", 65), ("Agent Systems", 60),
   ("Meta-Learning", 58), ("Explainable AI", 55), ("Transfer Learning", 52),
   ("Graph Neural Networks", 50), ("Attention Mechanisms", 48),
   ("Self-Supervised Learning", 45), ("Federated Learning", 42),
   ("Neural Architecture Search", 40), ("Robotics", 38)]

/-- `get_mock_trending()` as (topic, count) pairs. -/
def get_mock_trending : List (String × Nat) :=
  [("Large Language Models", 150), ("Multimodal Learning", 130), ("AI Safety", 120),
   ("Reinforcement Learning", 110), ("Computer Vision", 105), ("Diffusion Models", 95),
   ("Natural Language Processing", 90), ("Few-Shot Learning", 85), ("Neural Networks", 80),
   ("Deep Learning", 78), ("Generative AI", 75), ("Vision-Language Models", 65),
   ("Agent Systems", 60), ("Meta-Learning", 58), ("Explainable AI", 55)]

/-- `get_mock_researchers()`. -/
def get_mock_researchers : List MockResearcher :=
  [{ name := "Dr. Alice Zhang", affiliation := "MIT CSAIL", country := "US",
     link := "https://scholar.google.com/citations?user=alice_zhang",
     topics := ["Large Language Models", "Natural Language Processing", "AI Safety"],
     citations := 15420, works_count := 87 },
   { name := "Prof. Mark Liu", affiliation := "Stanford AI Lab", country := "US",
     link := "https://arxiv.org/a/liu_m_1.html",
     topics := ["Multimodal Learning", "Vision-Language Models", "Computer Vision"],
     citations := 12350, works_count := 65 },
   { name := "Dr. Sarah Chen", affiliation := "Google DeepMind", country := "UK",
     link := "https://scholar.google.com/citations?user=sarah_chen",
     topics := ["Reinforcement Learning", "Agent Systems", "AI Safety"],
     citations := 18900, works_count := 52 },
   { name := "Prof. James Anderson", affiliation := "UC Berkeley", country := "US",
     link := "https://scholar.google.com/citations?user=j_anderson",
     topics := ["Deep Learning", "Neural Networks", "Transfer Learning"],
     citations := 22100, works_count := 120 },
   { name := "Dr. Elena Rodriguez", affiliation := "Carnegie Mellon University", country := "US",
     link := "https://scholar.google.com/citations?user=e_rodriguez",
     topics := ["Computer Vision", "Generative AI", "Diffusion Models"],
     citations := 9800, works_count := 45 },
   { name := "Prof. Wei Li", affiliation := "Tsinghua University", country := "CN",
     link := "https://scholar.google.com/citations?user=wei_li",
     topics := ["Natural Language Processing", "Large Language Models", "Machine Learning"],
     citations := 14200, works_count := 92 },
   { name := "Dr. Michael Brown", affiliation := "Oxford University", country := "UK",
     link := "https://scholar.google.com/citations?user=m_brown",
     topics := ["AI Safety", "AI Alignment", "Explainable AI"],
     citations := 8500, works_count := 38 },
   { name := "Prof. Yuki Tanaka", affiliation := "University of Tokyo", country := "JP",
     link := "https://scholar.google.com/citations?user=y_tanaka",
     topics := ["Robotics", "Reinforcement Learning", "Agent Systems"],
     citations := 11200, works_count := 68 },
   { name := "Dr. Sophie Martin", affiliation := "ETH Zurich", country := "CH",
     link := "https://scholar.google.com/citations?user=s_martin",
     topics := ["Meta-Learning", "Few-Shot Learning", "Transfer Learning"],
     citations := 7600, works_count := 41 },
   { name := "Prof. David Kumar", affiliation := "IIT Delhi", country := "IN",
     link := "https://scholar.google.com/citations?user=d_kumar",
     topics := ["Graph Neural Networks", "Deep Learning", "Machine Learning"],
     citations := 6900, works_count := 55 }]

/-- A loot-box capsule.  `year = none` models the `"N/A"` default of
`paper.get("publication_year", "N/A")`; the live `abstract` value (an
inverted index consumed opaquely) is modelled as an opaque optional
string, absent from the mock capsules. -/
structure Capsule where
  title : String
  year : Option Int
  citations : Nat
  link : String
  rarity : String
  rarity_label : String
  authors : List String
  concepts : List String
  abstract : Option String
deriving DecidableEq

/-- The `mock_capsules` fallback list of `get_lootbox`. -/
def mock_capsules : List Capsule :=
  [{ title := "Attention Is All You Need", year := some 2017, citations := 98234,
     link := "https://openalex.org/W2964315648", rarity := "SSR", rarity_label := "Legendary",
     authors := ["Ashish Vaswani", "Noam Shazeer", "Niki Parmar"],
     concepts := ["Transformer", "Neural Network", "Natural Language Processing"],
     abstract := none },
   { title := "BERT: Pre-training of Deep Bidirectional Transformers", year := some 2019,
     citations := 67543, link := "https://openalex.org/W2964315649", rarity := "SSR",
     rarity_label := "Legendary", authors := ["Jacob Devlin", "Ming-Wei Chang", "Kenton Lee"],
     concepts := ["BERT", "Language Model", "NLP"], abstract := none },
   { title := "Deep Residual Learning for Image Recognition", year := some 2016,
     citations := 154234, link := "https://openalex.org/W2964315650", rarity := "SSR",
     rarity_label := "Legendary", authors := ["Kaiming He", "Xiangyu Zhang", "Shaoqing Ren"],
     concepts := ["Computer Vision", "ResNet", "Deep Learning"], abstract := none },
   { title := "Generative Adversarial Networks", year := some 2014, citations := 45678,
     link := "https://openalex.org/W2964315651", rarity := "SSR", rarity_label := "Legendary",
     authors := ["Ian Goodfellow", "Jean Pouget-Abadie", "Mehdi Mirza"],
     concepts := ["GAN", "Generative Model", "Deep Learning"], abstract := none },
   { title := "Adam: A Method for Stochastic Optimization", year := some 2015,
     citations := 123456, link := "https://openalex.org/W2964315652", rarity := "SSR",
     rarity_label := "Legendary", authors := ["Diederik P. Kingma", "Jimmy Ba"],
     concepts := ["Optimization", "Machine Learning", "Gradient Descent"], abstract := none },
   { title := "Neural Architecture Search with Reinforcement Learning", year := some 2017,
     citations := 876, link := "https://openalex.org/W2964315653", rarity := "SR",
     rarity_label := "Epic", authors := ["Barret Zoph", "Quoc V. Le"],
     concepts := ["AutoML", "Neural Architecture Search", "Reinforcement Learning"],
     abstract := none },
   { title := "EfficientNet: Rethinking Model Scaling", year := some 2019, citations := 543,
     link := "https://openalex.org/W2964315654", rarity := "SR", rarity_label := "Epic",
     authors := ["Mingxing Tan", "Quoc V. Le"],
     concepts := ["Computer Vision", "Model Scaling", "Neural Networks"], abstract := none },
   { title := "Graph Neural Networks: A Review", year := some 2020, citations := 234,
     link := "https://openalex.org/W2964315655", rarity := "R", rarity_label := "Rare",
     authors := ["Jie Zhou", "Ganqu Cui", "Zhengyan Zhang"],
     concepts := ["Graph Neural Networks", "Deep Learning", "Graph Theory"],
     abstract := none },
   { title := "Self-Supervised Learning in Computer Vision", year := some 2021,
     citations := 187, link := "https://openalex.org/W2964315656", rarity := "R",
     rarity_label := "Rare",
     authors := ["Alexey Dosovitskiy", "Lucas Beyer", "Alexander Kolesnikov"],
     concepts := ["Self-Supervised Learning", "Computer Vision", "Representation Learning"],
     abstract := none },
   { title := "Few-Shot Learning with Meta-Learning", year := some 2022, citations := 45,
     link := "https://openalex.org/W2964315657", rarity := "N", rarity_label := "Common",
     authors := ["Chelsea Finn", "Pieter Abbeel", "Sergey Levine"],
     concepts := ["Few-Shot Learning", "Meta-Learning", "Transfer Learning"],
     abstract := none }]

/-! ## Endpoint control flow (app.py)

Each endpoint is modelled as a function of the outcomes of its upstream
calls (`Except Unit _` for a call that may raise, `Option` for
`get_trending_topics` / `search_researchers`, which catch internally and
return `None`), returning the HTTP status together with the payload. -/

/-- Substring test: Python's `needle in hay` on strings. -/
def containsSub (needle hay : String) : Bool :=
  charsOccur needle.toList hay.toList

/-- `/api/wordcloud` (lines 34–48): return the live data under
`if data:`, otherwise (None, empty list, or an exception) the mock
word cloud; the status is always 200. -/
def wordcloudEndpoint (live : Except Unit (Option (List (String × Nat)))) :
    Nat × List (String × Nat) :=
  match live with
  | .ok (some data) => if data.isEmpty then (200, get_mock_wordcloud) else (200, data)
  | .ok none => (200, get_mock_wordcloud)
  | .error _ => (200, get_mock_wordcloud)

/-- `/api/trending` (lines 50–70): same shape, with the text/value →
topic/count relabelling (the identity on our pair model). -/
def trendingEndpoint (live : Except Unit (Option (List (String × Nat)))) :
    Nat × List (String × Nat) :=
  match live with
  | .ok (some data) => if data.isEmpty then (200, get_mock_trending) else (200, data)
  | .ok none => (200, get_mock_trending)
  | .error _ => (200, get_mock_trending)

/-- `/api/researchers` (lines 72–110): live researcher dicts have the
same fields as the mock ones; a `None`, empty, or raising live path falls
back to the locally filtered mock list.  Status is always 200. -/
def researchersEndpoint (topic institution country : Option String)
    (live : Except Unit (Option (List MockResearcher))) :
    Nat × List MockResearcher :=
  match live with
  | .ok (some data) =>
    if data.isEmpty then (200, applyFallbackFilters topic institution country get_mock_researchers)
    else (200, data)
  | .ok none => (200, applyFallbackFilters topic institution country get_mock_researchers)
  | .error _ => (200, applyFallbackFilters topic institution country get_mock_researchers)

/-- One `paper_info` entry of `/api/chat`. -/
structure PaperInfo where
  title : Option String
  year : Option Int
  citations : Option Nat
  link : Option String
deriving DecidableEq

def paperInfoOf (w : Work) : PaperInfo :=
  { title := w.title, year := w.publication_year,
    citations := w.cited_by_count, link := w.id }

/-- `chat_with_rhett` (lines 174–215): the completion text stripped of
surrounding whitespace on success, the fixed Rhett placeholder on any
failure (the failure is swallowed, never propagated). -/
def chat_with_rhett (llm : Except Unit String) : String :=
  match llm with
  | .ok s => s.trim
  | .error _ =>
    "Whoops‚Äîmy Terrier nose hit a snag fetching OpenAI just now. Still, this topic is buzzing harder than a BU dining hall at lunchtime, so take a look at the researchers on the right while I reset my tail wag."

/-- The two possible response shapes of `/api/chat`: the live dict, or
the fixed fallback dict (summary built from the query, two hard-coded
researcher stubs, no papers). -/
inductive ChatOut where
  | live (summary : String) (researchers : List ResearcherEntry) (papers : List PaperInfo)
  | fallback (query : String)
deriving DecidableEq

/-- `/api/chat` (lines 220–303): an exception from the works search (or
from the trending fetch taken when both suggestion lists are empty) is
caught and answered with status 200 and the fallback dict. -/
def chatEndpoint (query : String) (works : Except Unit WorksResponse)
    (llm : Except Unit String) (trending : Except Unit WorksResponse) :
    Nat × ChatOut :=
  match works with
  | .error _ => (200, .fallback query)
  | .ok wr =>
    let paper_info := (wr.results.getD []).map paperInfoOf
    let researcher_info := extract_authors_from_works wr 3
    let summary := chat_with_rhett llm
    if researcher_info.isEmpty && paper_info.isEmpty then
      match trending with
      | .error _ => (200, .fallback query)
      | .ok tr =>
        (200, .live summary researcher_info
          (paper_info ++ (tr.results.getD []).map paperInfoOf))
    else (200, .live summary researcher_info paper_info)

/-- The `/api/rsti-advisor` request body. -/
structure RSTIRequest where
  rsti_type : String
  major : Option String
  conversation_history : List (String × String)
  choice : Option String
deriving DecidableEq

/-- The `/api/rsti-advisor` response dict. -/
structure RSTIOut where
  reply : String
  conversation_history : List (String × String)
  is_final : Bool
  recommended_topics : List String
deriving DecidableEq

/-- `line.lstrip('0123456789.-‚Ä¢) ')`: drop the leading characters that
belong to the given set. -/
def lstripSet (charset : List Char) (s : String) : String :=
  String.mk (s.toList.dropWhile (fun c => charset.contains c))

/-- The topic extraction of the advisor's final recommendation: keep at
most 3 stripped lines that start with a digit, `-`, or the bullet
sequence, after removing numbering/bullet characters. -/
def extractTopics (reply : String) : List String :=
  (reply.splitOn "\n").foldl
    (fun acc line =>
      let line := line.trim
      let starts :=
        match line.toList with
        | [] => false
        | c :: _ => c.isDigit
      if line ≠ "" ∧ (starts || line.startsWith "-" || line.startsWith "‚Ä¢") then
        let topic := (lstripSet "0123456789.-‚Ä¢) ".toList line).trim
        if topic ≠ "" ∧ acc.length < 3 then acc ++ [topic] else acc
      else acc)
    []

/-- `/api/rsti-advisor` (lines 314–392): on a completion-API failure the
endpoint answers 200 with the fixed fallback dict, echoing the request's
conversation history.  (The long system-prompt literal of the success
path is abbreviated here; only its presence in the message list, not its
text, is ever inspected.) -/
def rstiEndpoint (req : RSTIRequest) (llm : Except Unit String) : Nat × RSTIOut :=
  match llm with
  | .error _ =>
    (200,
     { reply := "Woof! My tail got tangled for a moment. Let me help you explore research directions in AI and machine learning!"
       conversation_history := req.conversation_history
       is_final := false
       recommended_topics := [] })
  | .ok reply0 =>
    let messages :=
      if req.conversation_history.isEmpty then
        [("system", "rsti-advisor system prompt"),
         ("user", "My academic background is " ++ req.major.getD "your field"
           ++ " and my RSTI type is " ++ req.rsti_type ++ ". Lets begin.")]
      else
        req.conversation_history ++
          (match req.choice with
           | some ch => if ch = "" then [] else [("user", "I choose option " ++ ch ++ ".")]
           | none => [])
    let reply := reply0.trim
    let messages := messages ++ [("assistant", reply)]
    let is_final := containsSub "üéØ" reply
      || (containsSub "Final" reply && containsSub "Recommendation" reply)
    (200,
     { reply := reply
       conversation_history := messages
       is_final := is_final
       recommended_topics := if is_final then extractTopics reply else [] })

/-- Capsule assembly for one selected paper (lines 430–470): classify the
citation count, keep the first 3 authors with a truthy display name and
the first 3 concepts with a truthy display name, in source order. -/
def capsuleOfWork (w : Work) : Capsule :=
  let citations := w.cited_by_count.getD 0
  let rl := classify citations
  { title := w.title.getD "Unknown Title"
    year := w.publication_year
    citations := citations
    link := w.id.getD ""
    rarity := rl.1
    rarity_label := rl.2
    authors := (w.authorships.take 3).filterMap
      (fun a =>
        match a.author with
        | none => none
        | some au =>
          match au.display_name with
          | none => none
          | some n => if n = "" then none else some n)
    concepts := (w.concepts.take 3).filterMap
      (fun c =>
        match c.display_name with
        | none => none
        | some n => if n = "" then none else some n)
    abstract := w.abstract_inverted_index }

/-- `/api/lootbox` (lines 397–582), with `random.sample` abstracted as
the two sampler arguments (one per element type).  A raising works
search, a response with no `results` key, or an empty result list all
raise inside the `try` and fall back to 5 sampled mock capsules; the
status is always 200. -/
def lootboxEndpoint (sampleWorks : List Work → Nat → List Work)
    (sampleCapsules : List Capsule → Nat → List Capsule)
    (works : Except Unit WorksResponse) : Nat × List Capsule :=
  match works with
  | .error _ => (200, sampleCapsules mock_capsules 5)
  | .ok wr =>
    match wr.results with
    | none => (200, sampleCapsules mock_capsules 5)
    | some all_papers =>
      if all_papers.isEmpty then (200, sampleCapsules mock_capsules 5)
      else
        let selected := sampleWorks all_papers (min 5 all_papers.length)
        (200, selected.map capsuleOfWork)

/-- `/api/lifepath` (lines 593–842): the completion text on success, and
`raise HTTPException(status_code=500, ...)` on any failure — the only
endpoint that surfaces an upstream failure as an error status. -/
def lifepathEndpoint (llm : Except Unit String) : Nat × Option String :=
  match llm with
  | .ok story => (200, some story)
  | .error _ => (500, none)

/-! ## General list lemmas used below -/

theorem filter_filter_self {α : Type} (p : α → Bool) (l : List α) :
    (l.filter p).filter p = l.filter p := by
  induction l with
  | nil => rfl
  | cons x xs ih =>
    by_cases h : p x <;> simp [List.filter_cons, h, ih]

theorem filter_comm {α : Type} (p q : α → Bool) (l : List α) :
    (l.filter p).filter q = (l.filter q).filter p := by
  induction l with
  | nil => rfl
  | cons x xs ih =>
    by_cases hp : p x <;> by_cases hq : q x <;>
      simp [List.filter_cons, hp, hq, ih]

theorem foldl_guard {α β : Type} (p : α → Bool) (f : β → α → β) (l : List α) (b : β) :
    l.foldl (fun m c => if p c then f m c else m) b = (l.filter p).foldl f b := by
  induction l generalizing b with
  | nil => rfl
  | cons x xs ih =>
    by_cases h : p x <;> simp [List.filter_cons, h, ih]

theorem take_append_of_le {α : Type} {k : Nat} {l l' : List α} (h : k ≤ l.length) :
    (l ++ l').take k = l.take k := by
  induction l generalizing k with
  | nil => cases k with
    | zero => rfl
    | succ n => exact absurd h (by simp)
  | cons x xs ih =>
    cases k with
    | zero => rfl
    | succ n => simp only [List.cons_append, List.take_succ_cons]
                exact congrArg (x :: ·) (ih (Nat.le_of_succ_le_succ h))

/-! ## C1 — rarity classification -/

/-- C1: the rarity classification is a total function of the citation
count, evaluated highest-threshold-first: citations ≥ 5000 is
("SSR","Legendary"), 1000 ≤ citations < 5000 is ("SR","Epic"),
200 ≤ citations < 1000 is ("R","Rare"), citations < 200 is
("N","Common"); in particular classify 5000 = SSR, 4999 = SR, 1000 = SR,
999 = R, 200 = R, 199 = N, 0 = N. -/
theorem classify_threshold_table (c : Nat) :
    (5000 ≤ c → classify c = ("SSR", "Legendary"))
    ∧ (1000 ≤ c → c < 5000 → classify c = ("SR", "Epic"))
    ∧ (200 ≤ c → c < 1000 → classify c = ("R", "Rare"))
    ∧ (c < 200 → classify c = ("N", "Common"))
    ∧ classify 5000 = ("SSR", "Legendary") ∧ classify 4999 = ("SR", "Epic")
    ∧ classify 1000 = ("SR", "Epic") ∧ classify 999 = ("R", "Rare")
    ∧ classify 200 = ("R", "Rare") ∧ classify 199 = ("N", "Common")
    ∧ classify 0 = ("N", "Common") := by
  refine ⟨?_, ?_, ?_, ?_, by decide, by decide, by decide, by decide,
    by decide, by decide, by decide⟩
  · intro h
    simp only [classify]
    rw [if_pos h]
  · intro h1 h2
    simp only [classify]
    rw [if_neg (by omega), if_pos h1]
  · intro h1 h2
    simp only [classify]
    rw [if_neg (by omega), if_neg (by omega), if_pos h1]
  · intro h
    simp only [classify]
    rw [if_neg (by omega), if_neg (by omega), if_neg (by omega)]

/-- Witness for C1 at concrete citation counts in each band. -/
theorem classify_threshold_table_witness :
    classify 6000 = ("SSR", "Legendary") ∧ classify 3000 = ("SR", "Epic")
    ∧ classify 500 = ("R", "Rare") ∧ classify 100 = ("N", "Common") :=
  ⟨(classify_threshold_table 6000).1 (by decide),
   (classify_threshold_table 3000).2.1 (by decide) (by decide),
   (classify_threshold_table 500).2.2.1 (by decide) (by decide),
   (classify_threshold_table 100).2.2.2.1 (by decide)⟩

/-! ## C6 — fallback researcher filtering is idempotent and commutative -/

/-- C6: the fallback researcher filtering (case-insensitive substring
match on topics, affiliation, and country) is idempotent — applying the
same filter twice equals applying it once — and the three field filters
commute pairwise: for every researcher list and every pair of filter
strings, topic-then-institution equals institution-then-topic, and
likewise for the other pairs. -/
theorem fallback_filtering_idempotent_commutative
    (l : List MockResearcher) (t i c : String) :
    filterByTopic t (filterByTopic t l) = filterByTopic t l
    ∧ filterByInstitution i (filterByInstitution i l) = filterByInstitution i l
    ∧ filterByCountry c (filterByCountry c l) = filterByCountry c l
    ∧ filterByInstitution i (filterByTopic t l) = filterByTopic t (filterByInstitution i l)
    ∧ filterByCountry c (filterByTopic t l) = filterByTopic t (filterByCountry c l)
    ∧ filterByCountry c (filterByInstitution i l) = filterByInstitution i (filterByCountry c l) :=
  ⟨filter_filter_self _ l, filter_filter_self _ l, filter_filter_self _ l,
   filter_comm _ _ l, filter_comm _ _ l, filter_comm _ _ l⟩

/-! ## C8 — the live researcher search ignores the topic's content -/

/-- C8: for any two distinct non-empty topic strings, with institution,
country and limit held equal, `search_researchers` builds identical
upstream query parameters — any truthy topic contributes the same fixed
filter entry `concepts.id:C154945302`, so the topic's text cannot
influence the live researcher result. -/
theorem researcher_search_ignores_topic_text
    (t1 t2 : String) (institution country : Option String) (limit : Nat)
    (h1 : t1 ≠ "") (h2 : t2 ≠ "") :
    researcherParams (some t1) institution country limit
      = researcherParams (some t2) institution country limit := by
  simp only [researcherParams, researcherFilters, truthyStr]
  simp [h1, h2]

/-- Witness for C8: two concrete distinct non-empty topics give the same
parameters. -/
theorem researcher_search_ignores_topic_text_witness :
    researcherParams (some "machine learning") none none 50
      = researcherParams (some "quantum biology") none none 50 :=
  researcher_search_ignores_topic_text "machine learning" "quantum biology"
    none none 50 (by decide) (by decide)

/-! ## C9 — an empty live topic list is treated exactly like a failure -/

/-- C9: `/api/wordcloud` and `/api/trending` fall back to the static mock
data not only when the live path raises, but also when the live
aggregation returns `None` or an empty list — the truthiness test on the
live result makes an empty-but-successful page indistinguishable from a
failure, so an empty live result is never returned to the caller. -/
theorem empty_live_result_falls_back :
    wordcloudEndpoint (.ok (some [])) = (200, get_mock_wordcloud)
    ∧ wordcloudEndpoint (.ok none) = (200, get_mock_wordcloud)
    ∧ wordcloudEndpoint (.ok (some [])) = wordcloudEndpoint (.error ())
    ∧ trendingEndpoint (.ok (some [])) = (200, get_mock_trending)
    ∧ trendingEndpoint (.ok none) = (200, get_mock_trending)
    ∧ trendingEndpoint (.ok (some [])) = trendingEndpoint (.error ())
    ∧ (wordcloudEndpoint (.ok (some []))).2 ≠ []
    ∧ (trendingEndpoint (.ok (some []))).2 ≠ [] :=
  ⟨rfl, rfl, rfl, rfl, rfl, rfl, by decide, by decide⟩

/-! ## C5 — all endpoints degrade to 200 with fallback data, except /api/lifepath -/

/-- C5: when every upstream call raises, each endpoint still answers
HTTP 200 with its fallback-shaped data — the mock word cloud, the mock
trending list, the locally filtered mock researchers, the fixed chat
fallback dict, the fixed advisor fallback dict, and 5 sampled mock
capsules — except the narrative-generation endpoint `/api/lifepath`,
which surfaces the failure as an explicit 5xx (status 500) response. -/
theorem upstream_failure_fallback_statuses
    (topic institution country : Option String) (query : String)
    (llm : Except Unit String) (req : RSTIRequest)
    (sw : List Work → Nat → List Work) (sc : List Capsule → Nat → List Capsule) :
    wordcloudEndpoint (.error ()) = (200, get_mock_wordcloud)
    ∧ trendingEndpoint (.error ()) = (200, get_mock_trending)
    ∧ researchersEndpoint topic institution country (.error ())
        = (200, applyFallbackFilters topic institution country get_mock_researchers)
    ∧ chatEndpoint query (.error ()) llm (.error ()) = (200, .fallback query)
    ∧ rstiEndpoint req (.error ())
        = (200,
           { reply := "Woof! My tail got tangled for a moment. Let me help you explore research directions in AI and machine learning!"
             conversation_history := req.conversation_history
             is_final := false
             recommended_topics := [] })
    ∧ lootboxEndpoint sw sc (.error ()) = (200, sc mock_capsules 5)
    ∧ (lifepathEndpoint (.error ())).1 = 500
    ∧ 500 ≥ 500 ∧ 500 < 600 :=
  ⟨rfl, rfl, rfl, rfl, rfl, rfl, rfl, by decide, by decide⟩

/-! ## C7 — works-search filters compose losslessly -/

theorem optEntry_length {α : Type} (o : Option α) (f : α → String) :
    (optEntry o f).length = if o.isSome then 1 else 0 := by
  cases o <;> rfl

theorem mem_optEntry {α : Type} {o : Option α} {x : α} (f : α → String) (h : x ∈ o) :
    f x ∈ optEntry o f := by
  cases o with
  | none => simp at h
  | some a =>
    rw [Option.mem_some_iff] at h
    subst h
    simp [optEntry]

/-- C7: the filter list built by `search_works` contains one `key:value`
entry for every explicit `filter_params` entry, one for every supplied
convenience shortcut, and one for every `kwargs` entry — booleans
lower-cased — and the combined `filter` parameter joins them with commas;
no supplied entry is dropped, even when a shortcut collides on key with
an explicit entry (the lengths add up exactly). -/
theorem works_filters_lossless
    (filter_params : List (String × PyVal)) (publication_year : Option PubYear)
    (publication_date : Option String) (cited_by_count : Option PyVal)
    (is_oa : Option Bool) (type_ : Option String)
    (institutions_id authors_id concepts_id : Option String)
    (kwargs : List (String × PyVal)) (fs : List String)
    (hfs : fs = buildWorksFilters filter_params publication_year publication_date
      cited_by_count is_oa type_ institutions_id authors_id concepts_id kwargs) :
    fs.length = filter_params.length
        + shortcutCount publication_year publication_date cited_by_count is_oa type_
            institutions_id authors_id concepts_id
        + kwargs.length
    ∧ (∀ kv ∈ filter_params, serializeFilter kv ∈ fs)
    ∧ (∀ kv ∈ kwargs, serializeFilter kv ∈ fs)
    ∧ (∀ y ∈ publication_year, PubYear.serialize y ∈ fs)
    ∧ (∀ d ∈ publication_date, ("publication_date:" ++ d) ∈ fs)
    ∧ (∀ v ∈ cited_by_count, ("cited_by_count:" ++ PyVal.pyStr v) ∈ fs)
    ∧ (∀ b ∈ is_oa, ("is_oa:" ++ (if b then "true" else "false")) ∈ fs)
    ∧ (∀ t ∈ type_, ("type:" ++ t) ∈ fs)
    ∧ (∀ i ∈ institutions_id, ("institutions.id:" ++ i) ∈ fs)
    ∧ (∀ a ∈ authors_id, ("authorships.author.id:" ++ a) ∈ fs)
    ∧ (∀ c ∈ concepts_id, ("concepts.id:" ++ c) ∈ fs)
    ∧ (∀ key b, serializeFilter (key, PyVal.bool b)
        = key ++ ":" ++ (if b then "true" else "false"))
    ∧ combinedWorksFilter filter_params publication_year publication_date cited_by_count
        is_oa type_ institutions_id authors_id concepts_id kwargs
        = (if fs.isEmpty then none else some (String.intercalate "," fs)) := by
  subst hfs
  refine ⟨?_, ?_, ?_, ?_, ?_, ?_, ?_, ?_, ?_, ?_, ?_, fun key b => rfl, rfl⟩
  · simp only [buildWorksFilters, shortcutCount, List.length_append, List.length_map,
      List.length_nil, optEntry_length]
    omega
  · intro kv hkv
    have h : serializeFilter kv ∈ filter_params.map serializeFilter :=
      List.mem_map_of_mem _ hkv
    simp only [buildWorksFilters, List.mem_append]
    tauto
  · intro kv hkv
    have h : serializeFilter kv ∈ kwargs.map serializeFilter :=
      List.mem_map_of_mem _ hkv
    simp only [buildWorksFilters, List.mem_append]
    tauto
  · intro y hy
    have h := mem_optEntry PubYear.serialize hy
    simp only [buildWorksFilters, List.mem_append]
    tauto
  · intro d hd
    have h := mem_optEntry (fun d => "publication_date:" ++ d) hd
    simp only [buildWorksFilters, List.mem_append]
    tauto
  · intro v hv
    have h := mem_optEntry (fun v => "cited_by_count:" ++ PyVal.pyStr v) hv
    simp only [buildWorksFilters, List.mem_append]
    tauto
  · intro b hb
    have h := mem_optEntry (fun b => "is_oa:" ++ (if b then "true" else "false")) hb
    simp only [buildWorksFilters, List.mem_append]
    tauto
  · intro t ht
    have h := mem_optEntry (fun t => "type:" ++ t) ht
    simp only [buildWorksFilters, List.mem_append]
    tauto
  · intro i hi
    have h := mem_optEntry (fun i => "institutions.id:" ++ i) hi
    simp only [buildWorksFilters, List.mem_append]
    tauto
  · intro a ha
    have h := mem_optEntry (fun a => "authorships.author.id:" ++ a) ha
    simp only [buildWorksFilters, List.mem_append]
    tauto
  · intro c hc
    have h := mem_optEntry (fun c => "concepts.id:" ++ c) hc
    simp only [buildWorksFilters, List.mem_append]
    tauto

/-- Witness for C7: a colliding `publication_year` explicit entry and
shortcut are both present in the built filter list. -/
theorem works_filters_lossless_witness :
    serializeFilter ("publication_year", PyVal.str "1999")
       ∈ buildWorksFilters [("is_oa", PyVal.bool true), ("publication_year", PyVal.str "1999")]
          (some (PubYear.years [2020, 2021])) none (some (PyVal.str ">50")) none none
          none none none []
    ∧ PubYear.serialize (PubYear.years [2020, 2021])
       ∈ buildWorksFilters [("is_oa", PyVal.bool true), ("publication_year", PyVal.str "1999")]
          (some (PubYear.years [2020, 2021])) none (some (PyVal.str ">50")) none none
          none none none [] :=
  ⟨(works_filters_lossless [("is_oa", PyVal.bool true), ("publication_year", PyVal.str "1999")]
      (some (PubYear.years [2020, 2021])) none (some (PyVal.str ">50")) none none
      none none none [] _ rfl).2.1 _ (by simp),
   (works_filters_lossless [("is_oa", PyVal.bool true), ("publication_year", PyVal.str "1999")]
      (some (PubYear.years [2020, 2021])) none (some (PyVal.str ">50")) none none
      none none none [] _ rfl).2.2.2.1 _ (by simp)⟩

/-! ## C3 / C4 — topic aggregation: cap, order, stability, level filter -/

/-- Non-increasing-by-count orderedness. -/
def SortedCountDesc (l : List (String × Nat)) : Prop :=
  l.Pairwise (fun a b => b.2 ≤ a.2)

theorem mem_insertDesc {x y : String × Nat} {l : List (String × Nat)} :
    y ∈ insertDesc x l ↔ y = x ∨ y ∈ l := by
  induction l with
  | nil => simp [insertDesc]
  | cons z zs ih =>
    by_cases h : x.2 < z.2
    · simp only [insertDesc, if_pos h, List.mem_cons, ih]
      tauto
    · simp only [insertDesc, if_neg h, List.mem_cons]

theorem sortedCountDesc_insertDesc {x : String × Nat} {l : List (String × Nat)}
    (h : SortedCountDesc l) : SortedCountDesc (insertDesc x l) := by
  induction l with
  | nil => simp [insertDesc, SortedCountDesc]
  | cons y ys ih =>
    rw [SortedCountDesc, List.pairwise_cons] at h
    by_cases hc : x.2 < y.2
    · rw [SortedCountDesc]
      simp only [insertDesc, if_pos hc]
      rw [List.pairwise_cons]
      refine ⟨fun z hz => ?_, ih h.2⟩
      rcases mem_insertDesc.mp hz with rfl | hz
      · exact Nat.le_of_lt hc
      · exact h.1 z hz
    · rw [SortedCountDesc]
      simp only [insertDesc, if_neg hc]
      rw [List.pairwise_cons]
      refine ⟨fun z hz => ?_, List.pairwise_cons.mpr h⟩
      rcases hz with _ | hz
      · exact Nat.le_of_not_lt hc
      · exact Nat.le_trans (h.1 z (by assumption)) (Nat.le_of_not_lt hc)

theorem sortedCountDesc_sortDesc (l : List (String × Nat)) :
    SortedCountDesc (sortDesc l) := by
  induction l with
  | nil => exact List.Pairwise.nil
  | cons x xs ih => exact sortedCountDesc_insertDesc ih

theorem filter_insertDesc_eq {x : String × Nat} {c : Nat} (l : List (String × Nat))
    (hx : x.2 = c) :
    (insertDesc x l).filter (fun y => y.2 == c) = x :: l.filter (fun y => y.2 == c) := by
  induction l with
  | nil => simp [insertDesc, List.filter_cons, hx]
  | cons y ys ih =>
    by_cases h : x.2 < y.2
    · have hy : (y.2 == c) = false := by
        simp only [beq_eq_false_iff_ne]
        omega
      simp only [insertDesc, if_pos h, List.filter_cons, hy]
      exact ih
    · simp only [insertDesc, if_neg h]
      rw [List.filter_cons, if_pos (by simp [hx])]

theorem filter_insertDesc_ne {x : String × Nat} {c : Nat} (l : List (String × Nat))
    (hx : x.2 ≠ c) :
    (insertDesc x l).filter (fun y => y.2 == c) = l.filter (fun y => y.2 == c) := by
  induction l with
  | nil => simp [insertDesc, List.filter_cons, hx]
  | cons y ys ih =>
    by_cases h : x.2 < y.2
    · simp only [insertDesc, if_pos h, List.filter_cons]
      rw [ih]
    · simp only [insertDesc, if_neg h]
      rw [List.filter_cons, if_neg (by simp [hx])]

/-- Stability of the descending sort: the elements of any one count class
appear in the sorted output exactly in their original (first-seen) order. -/
theorem sortDesc_stable (l : List (String × Nat)) (c : Nat) :
    (sortDesc l).filter (fun y => y.2 == c) = l.filter (fun y => y.2 == c) := by
  induction l with
  | nil => rfl
  | cons x xs ih =>
    have hfold : sortDesc (x :: xs) = insertDesc x (sortDesc xs) := rfl
    by_cases hx : x.2 = c
    · rw [hfold, filter_insertDesc_eq _ hx, ih, List.filter_cons, if_pos (by simp [hx])]
    · rw [hfold, filter_insertDesc_ne _ hx, ih, List.filter_cons, if_neg (by simp [hx])]

/-- C3: for every works page the aggregation of `get_trending_topics`
yields at most 30 (name, count) pairs, sorted non-increasing by count,
with each count class kept in first-seen (insertion) order — the output
is the 30-prefix of a stable descending sort of the insertion-ordered
counts — and a malformed page with no `results` key yields the empty
list rather than an error. -/
theorem trending_topics_sorted_capped (resp : WorksResponse) (c : Nat) :
    (get_trending_topics_core resp).length ≤ 30
    ∧ SortedCountDesc (get_trending_topics_core resp)
    ∧ (sortDesc (topicCounts (resp.results.getD []))).filter (fun y => y.2 == c)
        = (topicCounts (resp.results.getD [])).filter (fun y => y.2 == c)
    ∧ get_trending_topics_core resp
        = (sortDesc (topicCounts (resp.results.getD []))).take 30
    ∧ (resp.results = none → get_trending_topics_core resp = []) := by
  refine ⟨?_, ?_, sortDesc_stable _ _, rfl, ?_⟩
  · simp [get_trending_topics_core]
  · exact List.Pairwise.sublist (List.take_sublist _ _)
      (sortedCountDesc_sortDesc (topicCounts (resp.results.getD [])))
  · intro h
    simp [get_trending_topics_core, h, topicCounts, sortDesc]

/-- Witness for C3: a page with no `results` key aggregates to `[]`. -/
theorem trending_topics_sorted_capped_witness :
    get_trending_topics_core { results := none } = [] :=
  (trending_topics_sorted_capped { results := none } 0).2.2.2.2 rfl

/-- The inner per-work counting loop equals the same loop run on the work
with the skipped (level < 2 or nameless) tags removed. -/
theorem countWork_prune (w : Work) (m : List (String × Nat)) :
    w.concepts.foldl
        (fun m c => if tagCounted c then bump (c.display_name.getD "") m else m) m
      = (pruneWork w).concepts.foldl
          (fun m c => if tagCounted c then bump (c.display_name.getD "") m else m) m := by
  rw [foldl_guard, foldl_guard]
  simp only [pruneWork]
  rw [filter_filter_self]

/-- C4: tags whose level is below 2 (or whose display name is missing or
empty) never contribute to the topic aggregate, regardless of how many
works carry them: the counts — and hence the final ranked output — over
any page equal those over the page with every such tag deleted. -/
theorem low_level_tags_never_counted (works : List Work) :
    topicCounts works = topicCounts (works.map pruneWork)
    ∧ get_trending_topics_core { results := some works }
        = get_trending_topics_core { results := some (works.map pruneWork) } := by
  have key : ∀ (ws : List Work) (m : List (String × Nat)),
      ws.foldl
          (fun m w => w.concepts.foldl
            (fun m c => if tagCounted c then bump (c.display_name.getD "") m else m) m) m
        = (ws.map pruneWork).foldl
            (fun m w => w.concepts.foldl
              (fun m c => if tagCounted c then bump (c.display_name.getD "") m else m) m) m := by
    intro ws
    induction ws with
    | nil => intro m; rfl
    | cons w rest ih =>
      intro m
      simp only [List.map_cons, List.foldl_cons]
      rw [← countWork_prune, ih]
  constructor
  · exact key works []
  · simp only [get_trending_topics_core, Option.getD_some]
    rw [show topicCounts works = topicCounts (works.map pruneWork) from key works []]

/-! ## C2 / C10 — author extractor: cap, dedup, first-seen order, links -/

theorem firstSeenDedup_take_of_le {k : Nat} (s acc : List (String × ResearcherEntry))
    (h : k ≤ acc.length) :
    (firstSeenDedup acc s).take k = acc.take k := by
  induction s generalizing acc with
  | nil => rfl
  | cons x rest ih =>
    obtain ⟨i, e⟩ := x
    simp only [firstSeenDedup]
    by_cases hc : (acc.map Prod.fst).contains i
    · rw [if_pos hc]
      exact ih acc h
    · rw [if_neg hc]
      rw [ih (acc ++ [(i, e)]) (by simp; omega)]
      exact take_append_of_le h

theorem firstSeenDedup_append (s t acc : List (String × ResearcherEntry)) :
    firstSeenDedup acc (s ++ t) = firstSeenDedup (firstSeenDedup acc s) t := by
  induction s generalizing acc with
  | nil => rfl
  | cons x rest ih =>
    obtain ⟨i, e⟩ := x
    simp only [List.cons_append, firstSeenDedup]
    by_cases hc : (acc.map Prod.fst).contains i
    · rw [if_pos hc, if_pos hc]
      exact ih acc
    · rw [if_neg hc, if_neg hc]
      exact ih (acc ++ [(i, e)])

theorem processAuthorships_take (k : Nat) (as : List Authorship)
    (acc : List (String × ResearcherEntry)) :
    (processAuthorships k acc as).take k
      = (firstSeenDedup acc (as.filterMap candidateOf)).take k := by
  induction as generalizing acc with
  | nil => rfl
  | cons a rest ih =>
    cases hc : candidateOf a with
    | none =>
      simp only [processAuthorships, authorshipEntry, hc, List.filterMap_cons]
      exact ih acc
    | some ie =>
      obtain ⟨i, e⟩ := ie
      simp only [processAuthorships, authorshipEntry, hc, List.filterMap_cons,
        firstSeenDedup]
      by_cases hm : (acc.map Prod.fst).contains i
      · rw [if_pos hm, if_pos hm]
        exact ih acc
      · rw [if_neg hm, if_neg hm]
        show List.take k (if k ≤ (acc ++ [(i, e)]).length then acc ++ [(i, e)]
              else processAuthorships k (acc ++ [(i, e)]) rest)
            = List.take k (firstSeenDedup (acc ++ [(i, e)]) (rest.filterMap candidateOf))
        by_cases hk : k ≤ (acc ++ [(i, e)]).length
        · rw [if_pos hk, firstSeenDedup_take_of_le _ _ hk]
        · rw [if_neg hk]
          exact ih (acc ++ [(i, e)])

theorem processWorks_take (k : Nat) (ws : List Work)
    (acc : List (String × ResearcherEntry)) :
    (processWorks k acc ws).take k = (firstSeenDedup acc (candidates ws)).take k := by
  induction ws generalizing acc with
  | nil => rfl
  | cons w rest ih =>
    have hsplit : candidates (w :: rest)
        = w.authorships.filterMap candidateOf ++ candidates rest := by
      simp [candidates]
    have hIn : (processAuthorships k acc w.authorships).take k
        = (firstSeenDedup acc (w.authorships.filterMap candidateOf)).take k :=
      processAuthorships_take k _ acc
    simp only [processWorks, hsplit, firstSeenDedup_append]
    by_cases hk : k ≤ (processAuthorships k acc w.authorships).length
    · rw [if_pos hk]
      have hkD : k ≤ (firstSeenDedup acc (w.authorships.filterMap candidateOf)).length := by
        have h2 := congrArg List.length hIn
        simp only [List.length_take] at h2
        omega
      rw [firstSeenDedup_take_of_le _ _ hkD, ← hIn]
    · rw [if_neg hk]
      have hlt : (processAuthorships k acc w.authorships).length < k :=
        Nat.lt_of_not_le hk
      have hacc2D : processAuthorships k acc w.authorships
          = firstSeenDedup acc (w.authorships.filterMap candidateOf) := by
        have h1 : (processAuthorships k acc w.authorships).take k
            = processAuthorships k acc w.authorships :=
          List.take_of_length_le (Nat.le_of_lt hlt)
        have h2 := congrArg List.length hIn
        simp only [List.length_take] at h2
        have h3 : (firstSeenDedup acc (w.authorships.filterMap candidateOf)).length ≤ k := by
          omega
        rw [← h1, hIn, List.take_of_length_le h3]
      rw [ih, hacc2D]

/-- The characterization behind C2: the extractor's break-early loops,
followed by the final `[:max_authors]` truncation, compute exactly the
`max_authors`-prefix of the straightforward first-seen deduplication of
the page's candidate stream. -/
theorem extract_eq_firstSeenDedup (resp : WorksResponse) (k : Nat) :
    extract_authors_from_works resp k
      = ((firstSeenDedup [] (candidates (resp.results.getD []))).map Prod.snd).take k := by
  obtain ⟨results⟩ := resp
  cases results with
  | none => simp [extract_authors_from_works, candidates, firstSeenDedup]
  | some works =>
    simp only [extract_authors_from_works, Option.getD_some]
    rw [← List.map_take, processWorks_take k works [], List.map_take]

theorem firstSeenDedup_preserve {P : String × ResearcherEntry → Prop}
    (s acc : List (String × ResearcherEntry))
    (hacc : ∀ x ∈ acc, P x) (hs : ∀ x ∈ s, P x) :
    ∀ x ∈ firstSeenDedup acc s, P x := by
  induction s generalizing acc with
  | nil => exact hacc
  | cons y rest ih =>
    obtain ⟨i, e⟩ := y
    simp only [firstSeenDedup]
    by_cases hc : (acc.map Prod.fst).contains i
    · rw [if_pos hc]
      exact ih acc hacc (fun x hx => hs x (List.mem_cons_of_mem _ hx))
    · rw [if_neg hc]
      refine ih (acc ++ [(i, e)]) ?_ (fun x hx => hs x (List.mem_cons_of_mem _ hx))
      intro x hx
      rcases List.mem_append.mp hx with hx | hx
      · exact hacc x hx
      · rw [List.mem_singleton] at hx
        subst hx
        exact hs _ (List.mem_cons_self _ _)

theorem nodup_fst_firstSeenDedup (s acc : List (String × ResearcherEntry))
    (h : (acc.map Prod.fst).Nodup) :
    ((firstSeenDedup acc s).map Prod.fst).Nodup := by
  induction s generalizing acc with
  | nil => exact h
  | cons y rest ih =>
    obtain ⟨i, e⟩ := y
    simp only [firstSeenDedup]
    by_cases hc : (acc.map Prod.fst).contains i
    · rw [if_pos hc]
      exact ih acc h
    · rw [if_neg hc]
      refine ih (acc ++ [(i, e)]) ?_
      have hi : i ∉ acc.map Prod.fst := by
        intro hmem
        exact hc (List.contains_iff_exists_mem_beq.mpr ⟨i, hmem, by simp⟩)
      simp [List.nodup_append, h, hi]

theorem candidateOf_link {a : Authorship} {i : String} {e : ResearcherEntry}
    (h : candidateOf a = some (i, e)) : e.link = i ∧ i ≠ "" := by
  obtain ⟨author?, insts⟩ := a
  cases author? with
  | none => simp [candidateOf] at h
  | some au =>
    obtain ⟨id?, dn⟩ := au
    cases id? with
    | none => simp [candidateOf] at h
    | some aid =>
      by_cases haid : aid = ""
      · simp [candidateOf, haid] at h
      · simp only [candidateOf, if_neg haid, Option.some_inj, Prod.mk.injEq] at h
        obtain ⟨h1, h2⟩ := h
        subst h1
        subst h2
        exact ⟨rfl, haid⟩

theorem candidates_link (ws : List Work) :
    ∀ x ∈ candidates ws, x.2.link = x.1 ∧ x.1 ≠ "" := by
  intro x hx
  simp only [candidates, List.mem_flatMap, List.mem_filterMap] at hx
  obtain ⟨w, _, a, _, hca⟩ := hx
  obtain ⟨i, e⟩ := x
  exact candidateOf_link hca

theorem extract_links_nodup (resp : WorksResponse) (k : Nat) :
    ((extract_authors_from_works resp k).map (fun e => e.link)).Nodup := by
  rw [extract_eq_firstSeenDedup]
  have hP : ∀ x ∈ firstSeenDedup [] (candidates (resp.results.getD [])),
      x.2.link = x.1 :=
    fun x hx =>
      (firstSeenDedup_preserve _ [] (by simp) (candidates_link _) x hx).1
  rw [List.map_take, List.map_map]
  have hcongr :
      (firstSeenDedup [] (candidates (resp.results.getD []))).map
          ((fun e => e.link) ∘ Prod.snd)
        = (firstSeenDedup [] (candidates (resp.results.getD []))).map Prod.fst := by
    apply List.map_congr_left
    intro x hx
    exact hP x hx
  rw [hcongr]
  exact List.Nodup.sublist (List.take_sublist _ _)
    (nodup_fst_firstSeenDedup _ [] (by simp))

/-- The scenario page of C2: one work with three authorships, the first
and third sharing one author id. -/
def sharedIdPage : WorksResponse :=
  { results := some
      [{ id := none, title := none, publication_year := none, cited_by_count := none,
         authorships :=
           [{ author := some { id := some "https://openalex.org/A1",
                               display_name := some "Alice" },
              institutions := [] },
            { author := some { id := some "https://openalex.org/A2",
                               display_name := some "Bob" },
              institutions := [] },
            { author := some { id := some "https://openalex.org/A1",
                               display_name := some "Alice" },
              institutions := [] }],
         concepts := [], abstract_inverted_index := none }] }

/-- C2: for every works page and every `max_authors`, the extractor
returns at most `max_authors` entries with pairwise distinct author ids
(the `link` field), equal to the `max_authors`-prefix of the first-seen
deduplication of the page's candidate stream (works in page order,
authorships in listed order, authorships without a usable author object
skipped, an already-captured id never re-added or re-ordered); in
particular a work with 3 authorships two of which share an author id
contributes exactly 2 entries. -/
theorem extract_authors_cap_dedup_order (resp : WorksResponse) (k : Nat) :
    (extract_authors_from_works resp k).length ≤ k
    ∧ ((extract_authors_from_works resp k).map (fun e => e.link)).Nodup
    ∧ extract_authors_from_works resp k
        = ((firstSeenDedup [] (candidates (resp.results.getD []))).map Prod.snd).take k
    ∧ (extract_authors_from_works sharedIdPage 3).length = 2 := by
  refine ⟨?_, extract_links_nodup resp k, extract_eq_firstSeenDedup resp k, by decide⟩
  rw [extract_eq_firstSeenDedup]
  exact List.length_take_le _ _

/-- C10: every entry the extractor returns carries a non-empty author id
in its `link` field — an authorship whose author object lacks an id, or
has an empty id, is skipped entirely. -/
theorem extract_authors_links_nonempty (resp : WorksResponse) (k : Nat)
    (e : ResearcherEntry) (he : e ∈ extract_authors_from_works resp k) :
    e.link ≠ "" := by
  rw [extract_eq_firstSeenDedup] at he
  have h1 := List.take_subset _ _ he
  rw [List.mem_map] at h1
  obtain ⟨x, hx, rfl⟩ := h1
  obtain ⟨h2, h3⟩ :=
    firstSeenDedup_preserve (P := fun x => x.2.link = x.1 ∧ x.1 ≠ "")
      _ [] (by simp) (candidates_link _) x hx
  rw [h2]
  exact h3

/-- Witness for C10: the concrete entry produced from `sharedIdPage` has
a non-empty link. -/
theorem extract_authors_links_nonempty_witness :
    ({ name := "Alice", link := "https://openalex.org/A1", affiliation := "N/A",
       field := "AI Research", works_count := none,
       cited_by_count := none } : ResearcherEntry).link ≠ "" :=
  extract_authors_links_nonempty sharedIdPage 3 _ (by decide)

end HiFive
